import Mathlib

/-!
Verification of the prompt-orchestration and response-normalization pipeline
of the GetInterviews repository.

The JavaScript/TypeScript code is shallowly embedded: JSON values become an
inductive type, the dynamic fallback operators (`||`, `??`, optional chaining)
become explicit functions on `Option Json`, and the external collaborators
(the Groq completion provider, the platform `JSON.parse`, the résumé parsers)
become oracle parameters, so that every theorem quantifying over them shows
the property holds regardless of what the external world returns.
-/

set_option maxRecDepth 8192

namespace GetInterviews

/-- JSON values as produced by `JSON.parse`.  Numbers are modelled as
integers: every numeric field in the schemas is an integer score, and the
claims under study do not depend on fractional or exotic float values. -/
inductive Json where
  | null : Json
  | bool : Bool → Json
  | num : Int → Json
  | str : String → Json
  | arr : List Json → Json
  | obj : List (String × Json) → Json
deriving Repr

/-- First binding of a key in an association list (JS object property
lookup; object literals in this codebase have distinct keys). -/
def lookupField : List (String × Json) → String → Option Json
  | [], _ => none
  | (k, v) :: rest, key => if k = key then some v else lookupField rest key

/-- JS property access `v.k` / `v?.k`: `some` on objects holding the key,
`none` (undefined) otherwise. -/
def Json.getProp : Json → String → Option Json
  | .obj fs, k => lookupField fs k
  | _, _ => none

/-- JS truthiness of a defined value (`undefined` is handled at the
`Option` level by the callers). -/
def Json.truthy : Json → Bool
  | .null => false
  | .bool b => b
  | .num n => n != 0
  | .str s => s != ""
  | .arr _ => true
  | .obj _ => true

/-- JS `x || d` where `x` may be undefined (`none`). -/
def jsOr (x : Option Json) (d : Json) : Json :=
  match x with
  | some v => if v.truthy then v else d
  | none => d

/-- JS `x ?? d` (nullish coalescing) where `x` may be undefined. -/
def jsNullish (x : Option Json) (d : Json) : Json :=
  match x with
  | some .null => d
  | some v => v
  | none => d

/-- Numeric value of a list of decimal digit characters. -/
def digitsVal (cs : List Char) : Option Nat :=
  if cs = [] then none else some (cs.foldl (fun a c => 10 * a + (c.toNat - 48)) 0)

/-- Decimal fragment of JS `parseInt` on a character sequence: optional
sign followed by the longest digit run; `none` models `NaN`. -/
def parseIntChars (cs0 : List Char) : Option Int :=
  let cs := cs0.dropWhile (fun c => c = ' ' || c = '\t' || c = '\n' || c = '\r')
  match cs with
  | '-' :: rest => (digitsVal (rest.takeWhile Char.isDigit)).map (fun n => -(n : Int))
  | '+' :: rest => (digitsVal (rest.takeWhile Char.isDigit)).map (fun n => (n : Int))
  | _ => (digitsVal (cs.takeWhile Char.isDigit)).map (fun n => (n : Int))

mutual

/-- JS abstract `String(v)` conversion restricted to our value model
(used by `parseInt`; objects stringify to a non-numeric constant). -/
def jsStringOf : Json → String
  | .null => "null"
  | .bool true => "true"
  | .bool false => "false"
  | .num n => toString n
  | .str s => s
  | .arr xs => jsStringOfList xs
  | .obj _ => "[object Object]"

/-- `Array.prototype.toString`: elements joined by commas, with `null`
rendering as the empty string. -/
def jsStringOfList : List Json → String
  | [] => ""
  | [.null] => ""
  | [x] => jsStringOf x
  | .null :: x :: xs => "," ++ jsStringOfList (x :: xs)
  | x :: y :: xs => jsStringOf x ++ "," ++ jsStringOfList (y :: xs)

end

/-- JS `parseInt(v)` on a possibly-undefined value; `none` models `NaN`.
`parseInt` stringifies its argument first; for an integer number that
round-trips to the number itself, taken as the direct equation here. -/
def jsParseInt : Option Json → Option Int
  | none => none
  | some (.num n) => some n
  | some j => parseIntChars (jsStringOf j).data

/-- JS `x || d` specialised to a number-or-NaN left operand (`0` and `NaN`
are falsy). -/
def intOr (x : Option Int) (d : Int) : Int :=
  match x with
  | some n => if n = 0 then d else n
  | none => d

/-- `Math.min(100, Math.max(0, n))` as applied to every score field. -/
def clamp0100 (n : Int) : Int := min 100 (max 0 n)

/-- The repeated score expression
`Math.min(100, Math.max(0, parseInt(v) || d))` of the normalizer. -/
def normScore (v : Option Json) (d : Int) : Int := clamp0100 (intOr (jsParseInt v) d)

/-- JS `v.slice(0, 3)`: defined on arrays and strings, a `TypeError`
(`none`) on any other receiver. -/
def jsSlice3 : Json → Option Json
  | .arr xs => some (.arr (xs.take 3))
  | .str s => some (.str ⟨s.data.take 3⟩)
  | _ => none

/-- Two-level optional-chain access `analysis.k1?.k2`. -/
def Json.getProp2 (j : Json) (k1 k2 : String) : Option Json :=
  (j.getProp k1).bind (fun v => v.getProp k2)

/-- The field-by-field body of the analyze-match `result` object literal,
with the already-sliced `resumeRewrites` value passed in. -/
def buildResult (analysis rewrites : Json) : Json :=
  Json.obj [
        ("overallScore", .num (normScore (analysis.getProp "overallScore") 50)),
        ("verdict", jsOr (analysis.getProp "verdict") (.str "Analysis Complete")),
        ("summary", jsOr (analysis.getProp "summary") (.str "")),
        ("sixSecondScan", .obj [
          ("firstImpression", jsOr (analysis.getProp2 "sixSecondScan" "firstImpression") (.str "")),
          ("standoutElements", jsOr (analysis.getProp2 "sixSecondScan" "standoutElements") (.arr [])),
          ("immediateRedFlags", jsOr (analysis.getProp2 "sixSecondScan" "immediateRedFlags") (.arr [])),
          ("wouldReadMore", jsNullish (analysis.getProp2 "sixSecondScan" "wouldReadMore") .null),
          ("whyOrWhyNot", jsOr (analysis.getProp2 "sixSecondScan" "whyOrWhyNot") (.str ""))]),
        ("atsAnalysis", .obj [
          ("score", .num (normScore (analysis.getProp2 "atsAnalysis" "score") 50)),
          ("likelyToPass", jsNullish (analysis.getProp2 "atsAnalysis" "likelyToPass") .null),
          ("keywordsFound", jsOr (analysis.getProp2 "atsAnalysis" "keywordsFound") (.arr [])),
          ("criticalKeywordsMissing", jsOr (analysis.getProp2 "atsAnalysis" "criticalKeywordsMissing") (.arr [])),
          ("suggestionToPassATS", jsOr (analysis.getProp2 "atsAnalysis" "suggestionToPassATS") (.str ""))]),
        ("qualificationGap", .obj [
          ("experienceRequired", jsOr (analysis.getProp2 "qualificationGap" "experienceRequired") (.str "")),
          ("experienceYouHave", jsOr (analysis.getProp2 "qualificationGap" "experienceYouHave") (.str "")),
          ("gapAssessment", jsOr (analysis.getProp2 "qualificationGap" "gapAssessment") (.str "Unknown")),
          ("yearsGap", jsOr (analysis.getProp2 "qualificationGap" "yearsGap") (.str "")),
          ("canYouCloseGap", jsNullish (analysis.getProp2 "qualificationGap" "canYouCloseGap") .null),
          ("howToCloseGap", jsOr (analysis.getProp2 "qualificationGap" "howToCloseGap") (.str ""))]),
        ("dealbreakers", jsOr (analysis.getProp "dealbreakers") (.arr [])),
        ("strengths", jsOr (analysis.getProp "strengths") (.arr [])),
        ("hiddenRedFlags", jsOr (analysis.getProp "hiddenRedFlags") (.arr [])),
        ("competitorAnalysis", .obj [
          ("typicalWinningCandidate", jsOr (analysis.getProp2 "competitorAnalysis" "typicalWinningCandidate") (.str "")),
          ("howYouCompare", jsOr (analysis.getProp2 "competitorAnalysis" "howYouCompare") (.str "")),
          ("yourCompetitiveAdvantage", jsOr (analysis.getProp2 "competitorAnalysis" "yourCompetitiveAdvantage") (.str "")),
          ("yourBiggestDisadvantage", jsOr (analysis.getProp2 "competitorAnalysis" "yourBiggestDisadvantage") (.str ""))]),
        ("applicationStrategy", .obj [
          ("shouldYouApply", jsNullish (analysis.getProp2 "applicationStrategy" "shouldYouApply") (.bool true)),
          ("confidenceLevel", jsOr (analysis.getProp2 "applicationStrategy" "confidenceLevel") (.str "MEDIUM")),
          ("bestApproach", jsOr (analysis.getProp2 "applicationStrategy" "bestApproach") (.str "APPLY_NOW")),
          ("timeWorthInvesting", jsOr (analysis.getProp2 "applicationStrategy" "timeWorthInvesting") (.str "")),
          ("alternativeStrategy", jsOr (analysis.getProp2 "applicationStrategy" "alternativeStrategy") (.str ""))]),
        ("resumeRewrites", rewrites),
        ("prioritizedActionPlan", .obj [
          ("before_applying", jsOr (analysis.getProp2 "prioritizedActionPlan" "before_applying") (.arr [])),
          ("quick_wins", jsOr (analysis.getProp2 "prioritizedActionPlan" "quick_wins") (.arr [])),
          ("worth_the_effort", jsOr (analysis.getProp2 "prioritizedActionPlan" "worth_the_effort") (.arr [])),
          ("long_term", jsOr (analysis.getProp2 "prioritizedActionPlan" "long_term") (.arr []))]),
        ("interviewProbability", .obj [
          ("percentage", .num (normScore (analysis.getProp2 "interviewProbability" "percentage") 30)),
          ("reasoning", jsOr (analysis.getProp2 "interviewProbability" "reasoning") (.str "")),
          ("whatWouldIncreaseOdds", jsOr (analysis.getProp2 "interviewProbability" "whatWouldIncreaseOdds") (.str ""))]),
        ("bottomLine", .obj [
          ("honestAssessment", jsOr (analysis.getProp2 "bottomLine" "honestAssessment") (.str "")),
          ("oneThingToFix", jsOr (analysis.getProp2 "bottomLine" "oneThingToFix") (.str "")),
          ("encouragement", jsOr (analysis.getProp2 "bottomLine" "encouragement") (.str ""))])]

/-- The analyze-match result normalizer (the `result` literal of the
handler).  A `.error` models the `TypeError` thrown when `analysis` is
`null` (property access on null) or when `analysis.resumeRewrites` is a
truthy value without a `slice` method; the surrounding handler turns such
a throw into a 500 response. -/
def normalizeAnalysis (analysis : Json) : Except String Json :=
  match analysis with
  | .null => .error "TypeError: cannot read properties of null"
  | _ =>
    match jsSlice3 (jsOr (analysis.getProp "resumeRewrites") (.arr [])) with
    | none => .error "TypeError: slice is not a function"
    | some rewrites => .ok (buildResult analysis rewrites)

/-- Nested field lookup along a path of keys. -/
def pathLookup (j : Json) : List String → Option Json
  | [] => some j
  | k :: ks =>
    match j.getProp k with
    | some v => pathLookup v ks
    | none => none

/-- All field paths declared by the Match Analysis schema (the shape of
the `result` literal of the analyze-match handler). -/
def declaredFieldPaths : List (List String) :=
  [["overallScore"], ["verdict"], ["summary"],
   ["sixSecondScan", "firstImpression"], ["sixSecondScan", "standoutElements"],
   ["sixSecondScan", "immediateRedFlags"], ["sixSecondScan", "wouldReadMore"],
   ["sixSecondScan", "whyOrWhyNot"],
   ["atsAnalysis", "score"], ["atsAnalysis", "likelyToPass"],
   ["atsAnalysis", "keywordsFound"], ["atsAnalysis", "criticalKeywordsMissing"],
   ["atsAnalysis", "suggestionToPassATS"],
   ["qualificationGap", "experienceRequired"], ["qualificationGap", "experienceYouHave"],
   ["qualificationGap", "gapAssessment"], ["qualificationGap", "yearsGap"],
   ["qualificationGap", "canYouCloseGap"], ["qualificationGap", "howToCloseGap"],
   ["dealbreakers"], ["strengths"], ["hiddenRedFlags"],
   ["competitorAnalysis", "typicalWinningCandidate"], ["competitorAnalysis", "howYouCompare"],
   ["competitorAnalysis", "yourCompetitiveAdvantage"], ["competitorAnalysis", "yourBiggestDisadvantage"],
   ["applicationStrategy", "shouldYouApply"], ["applicationStrategy", "confidenceLevel"],
   ["applicationStrategy", "bestApproach"], ["applicationStrategy", "timeWorthInvesting"],
   ["applicationStrategy", "alternativeStrategy"],
   ["resumeRewrites"],
   ["prioritizedActionPlan", "before_applying"], ["prioritizedActionPlan", "quick_wins"],
   ["prioritizedActionPlan", "worth_the_effort"], ["prioritizedActionPlan", "long_term"],
   ["interviewProbability", "percentage"], ["interviewProbability", "reasoning"],
   ["interviewProbability", "whatWouldIncreaseOdds"],
   ["bottomLine", "honestAssessment"], ["bottomLine", "oneThingToFix"],
   ["bottomLine", "encouragement"]]

/-- The fully-defaulted Canonical Result: what the normalizer yields for
the empty parsed object `\x7b\x7d`. -/
def defaultAnalysisResult : Json :=
  Json.obj [
    ("overallScore", .num 50),
    ("verdict", .str "Analysis Complete"),
    ("summary", .str ""),
    ("sixSecondScan", .obj [
      ("firstImpression", .str ""),
      ("standoutElements", .arr []),
      ("immediateRedFlags", .arr []),
      ("wouldReadMore", .null),
      ("whyOrWhyNot", .str "")]),
    ("atsAnalysis", .obj [
      ("score", .num 50),
      ("likelyToPass", .null),
      ("keywordsFound", .arr []),
      ("criticalKeywordsMissing", .arr []),
      ("suggestionToPassATS", .str "")]),
    ("qualificationGap", .obj [
      ("experienceRequired", .str ""),
      ("experienceYouHave", .str ""),
      ("gapAssessment", .str "Unknown"),
      ("yearsGap", .str ""),
      ("canYouCloseGap", .null),
      ("howToCloseGap", .str "")]),
    ("dealbreakers", .arr []),
    ("strengths", .arr []),
    ("hiddenRedFlags", .arr []),
    ("competitorAnalysis", .obj [
      ("typicalWinningCandidate", .str ""),
      ("howYouCompare", .str ""),
      ("yourCompetitiveAdvantage", .str ""),
      ("yourBiggestDisadvantage", .str "")]),
    ("applicationStrategy", .obj [
      ("shouldYouApply", .bool true),
      ("confidenceLevel", .str "MEDIUM"),
      ("bestApproach", .str "APPLY_NOW"),
      ("timeWorthInvesting", .str ""),
      ("alternativeStrategy", .str "")]),
    ("resumeRewrites", .arr []),
    ("prioritizedActionPlan", .obj [
      ("before_applying", .arr []),
      ("quick_wins", .arr []),
      ("worth_the_effort", .arr []),
      ("long_term", .arr [])]),
    ("interviewProbability", .obj [
      ("percentage", .num 30),
      ("reasoning", .str ""),
      ("whatWouldIncreaseOdds", .str "")]),
    ("bottomLine", .obj [
      ("honestAssessment", .str ""),
      ("oneThingToFix", .str ""),
      ("encouragement", .str "")])]

/-- Checks that a looked-up field is a number in the inclusive range
0 to 100. -/
def scoreInRange : Option Json → Bool
  | some (.num n) => decide (0 ≤ n ∧ n ≤ 100)
  | _ => false

/-- Out-of-range scores as the model might return them: 137 overall,
-20 interview probability. -/
def c2input : Json :=
  Json.obj [
    ("overallScore", .num 137),
    ("atsAnalysis", .obj [("score", .num 460)]),
    ("interviewProbability", .obj [("percentage", .num (-20))])]

/-- The normalized result for `c2input`. -/
def c2output : Json :=
  match normalizeAnalysis c2input with
  | .ok r => r
  | .error _ => Json.null

/-- A parsed analysis whose three numeric score fields are all 0, a value
inside the documented 0-100 range. -/
def c9input : Json :=
  Json.obj [
    ("overallScore", .num 0),
    ("atsAnalysis", .obj [("score", .num 0)]),
    ("interviewProbability", .obj [("percentage", .num 0)])]

/-- The normalized result for `c9input`. -/
def c9output : Json :=
  match normalizeAnalysis c9input with
  | .ok r => r
  | .error _ => Json.null

/-- A schema-exact Match Analysis object with the given field values:
the generic shape accepted by `validMatchAnalysis`. -/
def mkAnalysis (s ats ip : Int)
    (verdict summary fi wyn sug er eyh gap yg htc twc hyc yca ybd twi alt rsn wwio ha
      otf enc conf appr : String)
    (se irf kf ckm db st hrf rewrites bal qw wte lt : List Json)
    (wrm ltp cycg sya : Bool) : Json :=
  Json.obj [
    ("overallScore", .num s),
    ("verdict", .str verdict),
    ("summary", .str summary),
    ("sixSecondScan", .obj [
      ("firstImpression", .str fi),
      ("standoutElements", .arr se),
      ("immediateRedFlags", .arr irf),
      ("wouldReadMore", .bool wrm),
      ("whyOrWhyNot", .str wyn)]),
    ("atsAnalysis", .obj [
      ("score", .num ats),
      ("likelyToPass", .bool ltp),
      ("keywordsFound", .arr kf),
      ("criticalKeywordsMissing", .arr ckm),
      ("suggestionToPassATS", .str sug)]),
    ("qualificationGap", .obj [
      ("experienceRequired", .str er),
      ("experienceYouHave", .str eyh),
      ("gapAssessment", .str gap),
      ("yearsGap", .str yg),
      ("canYouCloseGap", .bool cycg),
      ("howToCloseGap", .str htc)]),
    ("dealbreakers", .arr db),
    ("strengths", .arr st),
    ("hiddenRedFlags", .arr hrf),
    ("competitorAnalysis", .obj [
      ("typicalWinningCandidate", .str twc),
      ("howYouCompare", .str hyc),
      ("yourCompetitiveAdvantage", .str yca),
      ("yourBiggestDisadvantage", .str ybd)]),
    ("applicationStrategy", .obj [
      ("shouldYouApply", .bool sya),
      ("confidenceLevel", .str conf),
      ("bestApproach", .str appr),
      ("timeWorthInvesting", .str twi),
      ("alternativeStrategy", .str alt)]),
    ("resumeRewrites", .arr rewrites),
    ("prioritizedActionPlan", .obj [
      ("before_applying", .arr bal),
      ("quick_wins", .arr qw),
      ("worth_the_effort", .arr wte),
      ("long_term", .arr lt)]),
    ("interviewProbability", .obj [
      ("percentage", .num ip),
      ("reasoning", .str rsn),
      ("whatWouldIncreaseOdds", .str wwio)]),
    ("bottomLine", .obj [
      ("honestAssessment", .str ha),
      ("oneThingToFix", .str otf),
      ("encouragement", .str enc)])]

/-- Schema-exactness for a parsed Match Analysis value: every declared
field present in the canonical order with the expected shape — numeric
scores inside 0-100, the enumeration fields holding one of their
documented values, at most 3 resume rewrites, plain strings, lists and
booleans elsewhere. -/
def validMatchAnalysis : Json → Bool
  | .obj [("overallScore", .num s),
          ("verdict", .str verdict),
          ("summary", .str _),
          ("sixSecondScan", .obj [
            ("firstImpression", .str _),
            ("standoutElements", .arr _),
            ("immediateRedFlags", .arr _),
            ("wouldReadMore", .bool _),
            ("whyOrWhyNot", .str _)]),
          ("atsAnalysis", .obj [
            ("score", .num ats),
            ("likelyToPass", .bool _),
            ("keywordsFound", .arr _),
            ("criticalKeywordsMissing", .arr _),
            ("suggestionToPassATS", .str _)]),
          ("qualificationGap", .obj [
            ("experienceRequired", .str _),
            ("experienceYouHave", .str _),
            ("gapAssessment", .str gap),
            ("yearsGap", .str _),
            ("canYouCloseGap", .bool _),
            ("howToCloseGap", .str _)]),
          ("dealbreakers", .arr _),
          ("strengths", .arr _),
          ("hiddenRedFlags", .arr _),
          ("competitorAnalysis", .obj [
            ("typicalWinningCandidate", .str _),
            ("howYouCompare", .str _),
            ("yourCompetitiveAdvantage", .str _),
            ("yourBiggestDisadvantage", .str _)]),
          ("applicationStrategy", .obj [
            ("shouldYouApply", .bool _),
            ("confidenceLevel", .str conf),
            ("bestApproach", .str appr),
            ("timeWorthInvesting", .str _),
            ("alternativeStrategy", .str _)]),
          ("resumeRewrites", .arr rewrites),
          ("prioritizedActionPlan", .obj [
            ("before_applying", .arr _),
            ("quick_wins", .arr _),
            ("worth_the_effort", .arr _),
            ("long_term", .arr _)]),
          ("interviewProbability", .obj [
            ("percentage", .num ip),
            ("reasoning", .str _),
            ("whatWouldIncreaseOdds", .str _)]),
          ("bottomLine", .obj [
            ("honestAssessment", .str _),
            ("oneThingToFix", .str _),
            ("encouragement", .str _)])] =>
    decide (0 ≤ s ∧ s ≤ 100) &&
    (verdict == "STRONG MATCH" || verdict == "MODERATE MATCH" || verdict == "WEAK MATCH" ||
      verdict == "LONG SHOT" || verdict == "NOT A FIT") &&
    decide (0 ≤ ats ∧ ats ≤ 100) &&
    (gap == "OVER_QUALIFIED" || gap == "SLIGHTLY_OVER" || gap == "GOOD_MATCH" ||
      gap == "SLIGHTLY_UNDER" || gap == "SIGNIFICANTLY_UNDER") &&
    (conf == "HIGH" || conf == "MEDIUM" || conf == "LOW" || conf == "VERY_LOW") &&
    (appr == "APPLY_NOW" || appr == "CUSTOMIZE_HEAVILY" || appr == "FIND_REFERRAL" ||
      appr == "SKIP_THIS_ONE" || appr == "APPLY_BUT_KEEP_LOOKING") &&
    decide (rewrites.length ≤ 3) &&
    decide (0 ≤ ip ∧ ip ≤ 100)
  | _ => false

/-- The looked-up field is a nonzero number. -/
def numNonzeroAt (a : Json) (p : List String) : Bool :=
  match pathLookup a p with
  | some (.num n) => n != 0
  | _ => false

/-- All three numeric score fields of a parsed analysis are nonzero. -/
def scoresNonzero (a : Json) : Bool :=
  numNonzeroAt a ["overallScore"] &&
  numNonzeroAt a ["atsAnalysis", "score"] &&
  numNonzeroAt a ["interviewProbability", "percentage"]

/-- A concrete schema-exact parsed analysis: every declared field present
with the expected shape and every score inside 0-100 — with
overallScore 0. -/
def c6input : Json :=
  Json.obj [
    ("overallScore", .num 0),
    ("verdict", .str "WEAK MATCH"),
    ("summary", .str "Borderline fit."),
    ("sixSecondScan", .obj [
      ("firstImpression", .str "Clean format."),
      ("standoutElements", .arr [.str "Clear history"]),
      ("immediateRedFlags", .arr []),
      ("wouldReadMore", .bool false),
      ("whyOrWhyNot", .str "Title mismatch.")]),
    ("atsAnalysis", .obj [
      ("score", .num 52),
      ("likelyToPass", .bool false),
      ("keywordsFound", .arr [.str "React"]),
      ("criticalKeywordsMissing", .arr [.str "AWS"]),
      ("suggestionToPassATS", .str "Add keywords.")]),
    ("qualificationGap", .obj [
      ("experienceRequired", .str "5+ years"),
      ("experienceYouHave", .str "4 years"),
      ("gapAssessment", .str "SLIGHTLY_UNDER"),
      ("yearsGap", .str "About one year short"),
      ("canYouCloseGap", .bool true),
      ("howToCloseGap", .str "Emphasize backend work.")]),
    ("dealbreakers", .arr []),
    ("strengths", .arr []),
    ("hiddenRedFlags", .arr []),
    ("competitorAnalysis", .obj [
      ("typicalWinningCandidate", .str "5-7 years full-stack"),
      ("howYouCompare", .str "Competitive on frontend"),
      ("yourCompetitiveAdvantage", .str "React depth"),
      ("yourBiggestDisadvantage", .str "Cloud gap")]),
    ("applicationStrategy", .obj [
      ("shouldYouApply", .bool true),
      ("confidenceLevel", .str "LOW"),
      ("bestApproach", .str "CUSTOMIZE_HEAVILY"),
      ("timeWorthInvesting", .str "1-2 hours"),
      ("alternativeStrategy", .str "Find a referral")]),
    ("resumeRewrites", .arr []),
    ("prioritizedActionPlan", .obj [
      ("before_applying", .arr [.str "Add skills"]),
      ("quick_wins", .arr []),
      ("worth_the_effort", .arr []),
      ("long_term", .arr [])]),
    ("interviewProbability", .obj [
      ("percentage", .num 15),
      ("reasoning", .str "Gaps cause rejection"),
      ("whatWouldIncreaseOdds", .str "Add missing skills")]),
    ("bottomLine", .obj [
      ("honestAssessment", .str "Borderline."),
      ("oneThingToFix", .str "Add keywords."),
      ("encouragement", .str "You are close.")])]

/-- The normalized result for `c6input`. -/
def c6norm : Json :=
  match normalizeAnalysis c6input with
  | .ok r => r
  | .error _ => Json.null

/-- A schema-exact parsed analysis whose scores (70, 52, 15) are all
nonzero. -/
def c6ok : Json :=
  mkAnalysis 70 52 15 "WEAK MATCH" "Borderline fit." "Clean format." "Title mismatch."
    "Add keywords." "5+ years" "4 years" "SLIGHTLY_UNDER" "About one year short"
    "Emphasize backend work." "5-7 years full-stack" "Competitive on frontend"
    "React depth" "Cloud gap" "1-2 hours" "Find a referral" "Gaps cause rejection"
    "Add missing skills" "Borderline." "Add keywords." "You are close." "LOW"
    "CUSTOMIZE_HEAVILY" [.str "Clear history"] [] [.str "React"] [.str "AWS"] [] [] []
    [] [.str "Add skills"] [] [] [] false false true true

/-- The top-level JSON container shape the extraction is told to look
for. -/
inductive JsonShape where
  | object : JsonShape
  | array : JsonShape

/-- The character opening the requested shape. -/
def openChar : JsonShape → Char
  | .object => '\x7b'
  | .array => '['

/-- The character closing the requested shape. -/
def closeChar : JsonShape → Char
  | .object => '\x7d'
  | .array => ']'

/-- The prefix of `cs` up to and including the last occurrence of `cl`
(`none` when `cl` does not occur): how the greedy `[\s\S]*` of the
extraction regex backtracks to the last closing character. -/
def lastCloseSplit (cl : Char) : List Char → Option (List Char)
  | [] => none
  | c :: rest =>
    match lastCloseSplit cl rest with
    | some p => some (c :: p)
    | none => if c = cl then some [c] else none

/-- Leftmost-greedy matching of the pattern `op [\s\S]* cl` (the shape of
the extraction regexes): the engine tries each start position from the
left; at a position holding `op` it matches greedily up to the last `cl`
in the remainder. -/
def regexSearch (op cl : Char) : List Char → Option (List Char)
  | [] => none
  | c :: rest =>
    if c = op then
      match lastCloseSplit cl rest with
      | some p => some (c :: p)
      | none => regexSearch op cl rest
    else regexSearch op cl rest

/-- `text.match(regex)` for the two extraction regexes, returning the
matched substring. -/
def jsMatchGreedy (op cl : Char) (s : String) : Option String :=
  (regexSearch op cl s.data).map (fun m => String.mk m)

/-- The extraction-level failure: no JSON of the requested shape in the
completion text. -/
inductive ExtractErr where
  | noJsonFound : ExtractErr
deriving Repr, DecidableEq

/-- JSON extraction from a raw completion: match the greedy regex for the
requested shape and hand the matched substring to `JSON.parse`; with no
match the request fails (`throw new Error('No JSON found in response')`
and its analogues). -/
def extractJson (shape : JsonShape) (s : String) : Except ExtractErr String :=
  match jsMatchGreedy (openChar shape) (closeChar shape) s with
  | some m => .ok m
  | none => .error .noJsonFound


/-- JS `String.prototype.trim` (restricted to the common whitespace
characters): strip leading and trailing whitespace. -/
def jsTrim (s : String) : String :=
  ⟨((s.data.dropWhile (fun c => c = ' ' || c = '\t' || c = '\n' || c = '\r')).reverse.dropWhile
      (fun c => c = ' ' || c = '\t' || c = '\n' || c = '\r')).reverse⟩

/-- An HTTP response as the express handlers produce it: a 200 JSON body
with `success: true` and a data payload, or an error status with
`success: false` and a message. -/
inductive ApiResponse where
  | success (status : Nat) (data : Json)
  | failure (status : Nat) (error : String)
deriving Repr

/-- A completion oracle returning the same text for every prompt (used to
instantiate theorems at concrete provider behaviours). -/
def constComplete (t : String) : String → String := fun _ => t

/-- A `JSON.parse` oracle that fails on every input (models a malformed
substring). -/
def noParse : String → Option Json := fun _ => none

/-- A `JSON.parse` oracle returning the empty object for every input. -/
def emptyObjParse : String → Option Json := fun _ => some (Json.obj [])

/-- The prompt of the legacy analyze-match endpoint: instruction text
(abridged here — no claim depends on its wording), the resume truncated
to 5000 characters and the job description truncated to 4000. -/
def legacyAnalyzeMatchPrompt (resumeText jobDescription : String) : String :=
  "You are a brutally honest career coach who has reviewed 10,000+ resumes and knows exactly why people don't get interviews. A frustrated jobseeker needs the TRUTH about why they're being ghosted.\n\nRESUME:\n"
    ++ resumeText.take 5000
    ++ "\n\nJOB DESCRIPTION:\n" ++ jobDescription.take 4000
    ++ "\n\nAnalyze this like you're the hiring manager who has 200 applications to review. Be specific, be honest, be helpful.\n\nReturn ONLY this JSON (no other text): ..."

/-- The prompt of the service-layer analyzeMatch (same truncations,
slightly different instruction text, abridged likewise). -/
def analyzeMatchPrompt (resumeText jobDescription : String) : String :=
  "You are a brutally honest career coach who has reviewed 10,000+ resumes and knows exactly why people don't get interviews.\n\nRESUME:\n"
    ++ resumeText.take 5000
    ++ "\n\nJOB DESCRIPTION:\n" ++ jobDescription.take 4000
    ++ "\n\nAnalyze like you're the hiring manager with 200 applications to review. Be specific, honest, helpful.\n\nReturn ONLY this JSON: ..."

/-- The profile-extraction prompt: instruction text (abridged) and the
resume truncated to 6000 characters. -/
def profilePrompt (resumeText : String) : String :=
  "Extract a structured profile from this resume. Return ONLY JSON:\n\nRESUME:\n"
    ++ resumeText.take 6000 ++ "\n\n..."

/-- The company-fit prompt: instruction text (abridged) over the profile
fields and the company name. -/
def companyFitPrompt (profile : Json) (companyName : String) : String :=
  "You are a career strategist. Analyze the fit between a candidate and a target company.\n\nCANDIDATE:\nTitle: "
    ++ jsStringOf (jsOr (profile.getProp "currentTitle") (.str "Professional"))
    ++ "\n\nTARGET COMPANY:\nName: " ++ companyName ++ "\n\nReturn ONLY JSON: ..."

/-- The interview-prep prompt: instruction text (abridged) over the
profile, resume, job description (truncated to 3000) and company
research. -/
def interviewPrepPrompt (profile : Json) (jobDescription companyName
    companyResearch : String) : String :=
  "You are an interview preparation coach. Generate personalized answers for interview questions using ONLY the information provided below.\n\nCANDIDATE PROFILE:\nName: "
    ++ jsStringOf (jsOr (profile.getProp "name") (.str "Candidate"))
    ++ "\n\nCOMPANY INFORMATION (" ++ companyName ++ "):\n" ++ companyResearch
    ++ "\n\nJOB DESCRIPTION:\n" ++ jobDescription.take 3000
    ++ "\n\nReturn ONLY the JSON array, no additional text."

/-- `getClient()` composed with the service-layer analyzeMatch: fails
before any provider call when no Groq client is configured; otherwise
sends the prompt, extracts the greedy object match from the completion
and hands it to `JSON.parse` (the `parse` oracle; `none` models a parse
throw). -/
def analyzeMatchService (client : Option Unit) (complete : String → String)
    (parse : String → Option Json) (resumeText jobDescription : String) :
    Except String Json :=
  match client with
  | none => .error "Groq client not initialized. Please configure GROQ_API_KEY."
  | some _ =>
    let responseText := complete (analyzeMatchPrompt resumeText jobDescription)
    match jsMatchGreedy (openChar .object) (closeChar .object) responseText with
    | none => .error "Failed to analyze"
    | some m =>
      match parse m with
      | some j => .ok j
      | none => .error "SyntaxError: unexpected token in JSON"

/-- resumeService.extractProfileFromResume: the whole body sits in a
try/catch that returns the empty object on any failure — no client, no
JSON in the completion, or a `JSON.parse` throw all yield `\x7b\x7d`. -/
def extractProfileFromResume (client : Option Unit) (complete : String → String)
    (parse : String → Option Json) (resumeText : String) : Json :=
  match client with
  | none => .obj []
  | some _ =>
    let responseText := complete (profilePrompt resumeText)
    match jsMatchGreedy (openChar .object) (closeChar .object) responseText with
    | none => .obj []
    | some m =>
      match parse m with
      | some j => j
      | none => .obj []

/-- aiService.analyzeCompanyFit: a missing client or a `JSON.parse` throw
is caught and mapped to the score-0 "Error" result; a completion without
JSON is mapped to the score-50 "Analysis Failed" fallback result. -/
def analyzeCompanyFit (client : Option Unit) (complete : String → String)
    (parse : String → Option Json) (profile : Json) (companyName : String) : Json :=
  match client with
  | none =>
    Json.obj [("score", .num 0), ("status", .str "Error"),
      ("analysis", .str "Service unavailable.")]
  | some _ =>
    let content := complete (companyFitPrompt profile companyName)
    match jsMatchGreedy (openChar .object) (closeChar .object) content with
    | none =>
      Json.obj [("score", .num 50), ("status", .str "Analysis Failed"),
        ("analysis", .str "Could not retrieve AI analysis at this time.")]
    | some m =>
      match parse m with
      | some j => j
      | none =>
        Json.obj [("score", .num 0), ("status", .str "Error"),
          ("analysis", .str "Service unavailable.")]

/-- aiService.generateInterviewPrep: requires a client, asks for a JSON
array and throws when the completion holds none. -/
def generateInterviewPrep (client : Option Unit) (complete : String → String)
    (parse : String → Option Json) (profile : Json)
    (jobDescription companyName companyResearch : String) : Except String Json :=
  match client with
  | none => .error "Groq client not initialized. Please configure GROQ_API_KEY."
  | some _ =>
    let responseText :=
      complete (interviewPrepPrompt profile jobDescription companyName companyResearch)
    match jsMatchGreedy (openChar .array) (closeChar .array) responseText with
    | none => .error "Failed to generate interview preparation"
    | some m =>
      match parse m with
      | some j => .ok j
      | none => .error "SyntaxError: unexpected token in JSON"


/-- The canned analysis data returned with `success: true` by the legacy
analyze-match endpoint when no GROQ_API_KEY is configured, transcribed
from the handler. -/
def mockAnalysisData : Json :=
  Json.obj [
    ("overallScore", .num 58),
    ("verdict", .str "MODERATE MATCH"),
    ("summary", .str "You have relevant experience, but you're missing 2-3 critical keywords that are likely getting your resume auto-rejected by the ATS. With some targeted changes, you could significantly improve your chances."),
    ("sixSecondScan", .obj [
      ("firstImpression", .str "Clean format, but job title doesn't immediately match. Skills section is buried at the bottom where recruiters might not see it."),
      ("standoutElements", .arr [.str "Clear work history", .str "Recognized company names", .str "Good education"]),
      ("immediateRedFlags", .arr [.str "Job title mismatch", .str "No quantified achievements visible", .str "Generic summary"]),
      ("wouldReadMore", .bool false),
      ("whyOrWhyNot", .str "The job title mismatch and lack of immediate keyword matches would likely cause most recruiters to move on within 6 seconds.")]),
    ("atsAnalysis", .obj [
      ("score", .num 52),
      ("likelyToPass", .bool false),
      ("keywordsFound", .arr [.str "JavaScript", .str "React", .str "Node.js", .str "Git", .str "Agile"]),
      ("criticalKeywordsMissing", .arr [.str "TypeScript", .str "AWS", .str "Docker", .str "CI/CD", .str "PostgreSQL"]),
      ("suggestionToPassATS", .str "Add the missing keywords to your skills section. If you have ANY experience with TypeScript or AWS, add them immediately - even if basic.")]),
    ("qualificationGap", .obj [
      ("experienceRequired", .str "5+ years of full-stack development with cloud experience"),
      ("experienceYouHave", .str "4 years of frontend-heavy development, limited cloud exposure"),
      ("gapAssessment", .str "SLIGHTLY_UNDER"),
      ("yearsGap", .str "You're about 1 year short on total experience, and significantly short on cloud/DevOps"),
      ("canYouCloseGap", .bool true),
      ("howToCloseGap", .str "Emphasize any backend or cloud work you've done. Consider adding a personal project using AWS to demonstrate capability.")]),
    ("dealbreakers", .arr [
      .obj [
        ("requirement", .str "TypeScript experience required"),
        ("status", .str "MISSING"),
        ("impact", .str "This alone could disqualify you - TypeScript is in the job title"),
        ("urgentFix", .str "Add TypeScript to your resume. If you've used it at all, even in side projects, list it. Consider spending 2-3 hours on a TypeScript tutorial so you can honestly claim familiarity.")],
      .obj [
        ("requirement", .str "AWS/Cloud platform experience"),
        ("status", .str "WEAK"),
        ("impact", .str "Major gap - most candidates at this level will have cloud experience"),
        ("urgentFix", .str "Deploy one of your existing projects to AWS (even a simple S3/CloudFront setup). Then you can legitimately list AWS experience.")]]),
    ("strengths", .arr [
      .obj [
        ("skill", .str "Strong React experience"),
        ("howItHelps", .str "React is the primary frontend framework they're using"),
        ("howToHighlight", .str "Move React higher in your skills list and quantify it: 'React (4 years, 10+ production apps)'")],
      .obj [
        ("skill", .str "Experience at recognized companies"),
        ("howItHelps", .str "Brand-name companies add credibility and suggest you've passed rigorous hiring before"),
        ("howToHighlight", .str "Keep company names prominent. Add brief context if company isn't well-known in tech.")]]),
    ("hiddenRedFlags", .arr [
      .obj [
        ("issue", .str "Short tenure at last company (10 months)"),
        ("whatRecruiterThinks", .str "Job hopper? Fired? Couldn't handle the role?"),
        ("howToAddress", .str "Add context if there's a good reason (startup ran out of funding, relocated, etc.) or emphasize what you accomplished in that time.")],
      .obj [
        ("issue", .str "No GitHub or portfolio link"),
        ("whatRecruiterThinks", .str "Can't verify skills. What are they hiding?"),
        ("howToAddress", .str "Add your GitHub link. If your repos are sparse, spend a weekend cleaning them up or adding one solid project.")]]),
    ("competitorAnalysis", .obj [
      ("typicalWinningCandidate", .str "5-7 years full-stack experience, TypeScript/React/Node stack, AWS certified or 2+ years cloud experience, has shipped production systems at scale"),
      ("howYouCompare", .str "You're competitive on frontend skills but behind on cloud/DevOps. You're in the 40th percentile of applicants for this role."),
      ("yourCompetitiveAdvantage", .str "Strong React depth and experience at established companies gives you credibility"),
      ("yourBiggestDisadvantage", .str "Missing cloud experience in a role that explicitly requires it - this is likely why you're not hearing back")]),
    ("applicationStrategy", .obj [
      ("shouldYouApply", .bool true),
      ("confidenceLevel", .str "LOW"),
      ("bestApproach", .str "CUSTOMIZE_HEAVILY"),
      ("timeWorthInvesting", .str "Worth 1-2 hours to customize, but only if you can honestly add TypeScript and some AWS experience"),
      ("alternativeStrategy", .str "Consider reaching out to someone at the company on LinkedIn first. A referral would significantly boost your chances given the experience gap.")]),
    ("resumeRewrites", .arr [
      .obj [
        ("section", .str "Professional Summary"),
        ("currentText", .str "Experienced software developer with a passion for building web applications"),
        ("problem", .str "Generic, no keywords, doesn't match job title"),
        ("rewrittenText", .str "Full-Stack Engineer with 4+ years building scalable React/TypeScript applications. Experienced in Node.js backends, REST API design, and cloud deployments. Passionate about clean code and developer experience."),
        ("whyBetter", .str "Matches job title, includes key technologies, quantifies experience")],
      .obj [
        ("section", .str "Work Experience - Bullet Point"),
        ("currentText", .str "Worked on the frontend team building new features"),
        ("problem", .str "No impact, no technologies, no scale"),
        ("rewrittenText", .str "Led development of customer dashboard using React and TypeScript, reducing page load time by 40% and increasing user engagement by 25%"),
        ("whyBetter", .str "Shows leadership, specific tech stack, quantified impact")]]),
    ("prioritizedActionPlan", .obj [
      ("before_applying", .arr [
        .str "Add TypeScript to your skills (do a quick tutorial if needed)",
        .str "Add at least one AWS service you can speak to",
        .str "Rewrite your summary to match the job title",
        .str "Add quantified achievements to every bullet point"]),
      ("quick_wins", .arr [
        .str "Add GitHub link to header",
        .str "Move skills section higher on resume",
        .str "Mirror exact phrases from job description"]),
      ("worth_the_effort", .arr [
        .str "Deploy a project to AWS this weekend",
        .str "Get AWS Cloud Practitioner cert (can be done in a week)",
        .str "Build one TypeScript project you can discuss in interviews"]),
      ("long_term", .arr [
        .str "Contribute to open source to build public proof of skills",
        .str "Write technical blog posts to demonstrate expertise",
        .str "Build network at target companies before applying"])]),
    ("interviewProbability", .obj [
      ("percentage", .num 15),
      ("reasoning", .str "The missing TypeScript requirement and limited cloud experience are likely causing automatic rejection. Your frontend skills are strong but not differentiated enough to overcome the gaps."),
      ("whatWouldIncreaseOdds", .str "Adding TypeScript and any AWS experience would likely bump this to 40-50%. A referral could push it to 60%+.")]),
    ("bottomLine", .obj [
      ("honestAssessment", .str "You're a borderline candidate right now. Not unqualified, but not competitive either. The good news: the gaps are fixable with a few hours of work. Don't apply to this job yet - spend this weekend on the quick fixes first."),
      ("oneThingToFix", .str "Add TypeScript to your resume. This single change could double your callback rate for senior frontend roles."),
      ("encouragement", .str "Your React experience is genuinely strong, and that's the core of this role. You're closer than you think - you just need to fill in the supporting skills that hiring managers expect to see.")])]


/-- The legacy POST /api/analyze-match handler of the standalone server.
`file` is `none` when no file was uploaded, `some (.error e)` when
`parseResume` threw (caught by the handler's catch-all as a 500), and
`some (.ok text)` with the extracted text otherwise.  The JS length gate
`!jobDescription || jobDescription.length < 50` is `length < 50` here,
since the empty string has length 0.  With no GROQ_API_KEY the handler
answers `success: true` with the canned mock analysis; otherwise the
completion goes through greedy JSON extraction, `JSON.parse` (the `parse`
oracle) and the result normalizer, any failure becoming a 500 response. -/
def legacyAnalyzeMatch (hasKey : Bool) (complete : String → String)
    (parse : String → Option Json) (file : Option (Except String String))
    (jobDescription : String) : ApiResponse :=
  match file with
  | none => .failure 400 "Resume file is required"
  | some fileRes =>
    if jobDescription.length < 50 then
      .failure 400 "Job description is required (minimum 50 characters)"
    else
      match fileRes with
      | .error e => .failure 500 e
      | .ok resumeText =>
        if (jsTrim resumeText).length < 50 then
          .failure 400 "Could not extract text from resume. Please try a different file."
        else if !hasKey then
          .success 200 mockAnalysisData
        else
          let responseText := complete (legacyAnalyzeMatchPrompt resumeText jobDescription)
          match jsMatchGreedy (openChar .object) (closeChar .object) responseText with
          | none => .failure 500 "Failed to analyze resume. Please try again."
          | some m =>
            match parse m with
            | none => .failure 500 "Failed to analyze resume. Please try again."
            | some analysis =>
              match normalizeAnalysis analysis with
              | .ok result => .success 200 result
              | .error e => .failure 500 e

/-- The success payload of the routed analyze-match endpoint. -/
def apiAnalyzeMatchData (sid : String) (analysis : Json) (verificationToken : String) :
    Json :=
  Json.obj [("sessionId", .str sid), ("analysis", analysis),
    ("verificationToken", .str verificationToken)]

/-- Run of the analysis step of the routed analyze-match endpoint: a
service error is caught and becomes a 500 response. -/
def apiAnalyzeMatchRun (client : Option Unit) (complete : String → String)
    (parse : String → Option Json) (verificationToken jobDescription resumeText
    sid : String) : ApiResponse :=
  match analyzeMatchService client complete parse resumeText jobDescription with
  | .ok analysis => .success 200 (apiAnalyzeMatchData sid analysis verificationToken)
  | .error msg => .failure 500 msg

/-- The routed POST /analyze-match handler (routes/api.ts).  Its job
description gate only rejects a missing/empty body field (`""` models the
JS-falsy absent value); there is no minimum-length check.  `file` carries
the extracted resume text of an uploaded file, `newSessionId` the
md5-derived id and `verificationToken` the random token (both produced
outside the embedded pipeline); the session-store write and the non-fatal
database inserts are not modelled — they are observable only through
later requests. -/
def apiAnalyzeMatchRoute (store : String → Option Json) (client : Option Unit)
    (complete : String → String) (parse : String → Option Json)
    (verificationToken newSessionId : String) (jobDescription : String)
    (sessionIdBody : Option String) (file : Option String) : ApiResponse :=
  if jobDescription = "" then .failure 400 "Job description is required"
  else
    match file with
    | some resumeText =>
      let _profile := extractProfileFromResume client complete parse resumeText
      apiAnalyzeMatchRun client complete parse verificationToken jobDescription
        resumeText newSessionId
    | none =>
      match sessionIdBody with
      | some sid =>
        match store sid with
        | none => .failure 404 "Session not found. Please upload resume again."
        | some session =>
          let resumeText :=
            match session.getProp "resumeText" with
            | some (.str t) => t
            | _ => ""
          apiAnalyzeMatchRun client complete parse verificationToken jobDescription
            resumeText sid
      | none => .failure 400 "No resume provided"

/-- JS object spread `\x7b ...a, ...b \x7d`: the entries of `a` in
order, each overridden by the value `b` holds for its key, followed by
the entries of `b` whose keys are new. -/
def spreadMerge (a b : List (String × Json)) : List (String × Json) :=
  a.map (fun kv =>
    (kv.1, match lookupField b kv.1 with
           | some w => w
           | none => kv.2))
  ++ b.filter (fun kv => (lookupField a kv.1).isNone)

/-- sessionService.update: create the entry as the empty object when the
id is unbound (object values are always truthy, so the JS falsy test on
the stored value coincides with presence), then shallow-merge `data` over
it and store the result. -/
def sessionsUpdate (store : String → Option (List (String × Json))) (id : String)
    (data : List (String × Json)) : String → Option (List (String × Json)) :=
  let cur :=
    match store id with
    | some s => s
    | none => []
  fun k => if k = id then some (spreadMerge cur data) else store k

/-- The legacy GET /api/saved-jobs handler: always a 200 success whose
savedJobs list is `session?.savedJobs || []` — a missing session yields
the empty list, not an error. -/
def savedJobsRoute (store : String → Option Json) (sessionId : String) : ApiResponse :=
  .success 200 (Json.obj [("savedJobs",
    jsOr ((store sessionId).bind (fun s => s.getProp "savedJobs")) (.arr []))])

/-- A one-session store for concrete instantiations: "sess1" holds a
resumeText of 60 characters. -/
def oneSessionStore : String → Option Json := fun i =>
  if i = "sess1" then
    some (Json.obj [("resumeText",
      .str "Senior frontend engineer with React, TypeScript and Node.")])
  else none

/-- A 49-character job description. -/
def jd49 : String := "Frontend engineer role needing React and TypeScri"

/-- A 50-character job description. -/
def jd50 : String := "Frontend engineer role needing React and TypeScrip"

/-- A 60-character resume text whose trimmed length passes the gate. -/
def resume60 : String :=
  "Experienced engineer: React, TypeScript, Node, SQL, testing."

/-- A job description comfortably over the 50-character gate. -/
def jdLong : String :=
  "We need a senior frontend engineer with React, TypeScript and cloud experience."

/-- A session store for the shallow-merge witness: "s1" holds a session
with a single profile field. -/
def profileOnlyStore : String → Option (List (String × Json)) := fun i =>
  if i = "s1" then some [("profile", Json.str "P")] else none

/-! ## Theorems -/

/-- Successful normalization always yields the `result` literal, for the
input and the sliced `resumeRewrites` value. -/
theorem normalizeAnalysis_ok {a r : Json} (h : normalizeAnalysis a = .ok r) :
    ∃ rw, jsSlice3 (jsOr (a.getProp "resumeRewrites") (.arr [])) = some rw ∧
      r = buildResult a rw := by
  cases a <;> simp only [normalizeAnalysis] at h
  case null => exact absurd h (by simp)
  all_goals
    split at h
    case _ => exact absurd h (by simp)
    case _ rw hs => exact ⟨rw, hs, by injection h with h; exact h.symm⟩

/-- Property lookup on an object literal is association-list lookup. -/
theorem getProp_obj (fs : List (String × Json)) (k : String) :
    (Json.obj fs).getProp k = lookupField fs k := rfl

/-- Lower bound of the clamped score expression. -/
theorem normScore_nonneg (v : Option Json) (d : Int) : 0 ≤ normScore v d :=
  le_min (by norm_num) (le_max_left 0 _)

/-- Upper bound of the clamped score expression. -/
theorem normScore_le (v : Option Json) (d : Int) : normScore v d ≤ 100 :=
  min_le_left _ _

/-- C1: for every parsed analysis value the normalizer accepts, every
declared field of the Match Analysis schema is present in the output
(none is absent/undefined), and normalizing the empty object yields the
fully-defaulted result, whose fields carry the documented defaults. -/
theorem normalize_default_completeness :
    (∀ (a r : Json), normalizeAnalysis a = .ok r →
        declaredFieldPaths.all (fun p => (pathLookup r p).isSome) = true)
    ∧ normalizeAnalysis (Json.obj []) = .ok defaultAnalysisResult := by
  constructor
  · intro a r h
    obtain ⟨rw, _, hr⟩ := normalizeAnalysis_ok h
    subst hr
    simp [buildResult, declaredFieldPaths, pathLookup, Json.getProp, lookupField]
  · rfl

/-- Witness for C1 at the empty object. -/
theorem normalize_default_completeness_witness :
    declaredFieldPaths.all (fun p => (pathLookup defaultAnalysisResult p).isSome) = true :=
  normalize_default_completeness.1 (Json.obj []) defaultAnalysisResult
    normalize_default_completeness.2

/-- C2: every numeric score field of a normalized result lies in the
inclusive range 0 to 100, whatever value the model returned for it. -/
theorem normalize_clamps_scores :
    ∀ (a r : Json), normalizeAnalysis a = .ok r →
      ∀ p ∈ [["overallScore"], ["atsAnalysis", "score"],
             ["interviewProbability", "percentage"]],
        scoreInRange (pathLookup r p) = true := by
  intro a r h p hp
  obtain ⟨rw, _, hr⟩ := normalizeAnalysis_ok h
  subst hr
  fin_cases hp <;>
    · simp [buildResult, pathLookup, Json.getProp, lookupField, scoreInRange]
      exact ⟨normScore_nonneg _ _, normScore_le _ _⟩

/-- Witness for C2: scores 137, 460 and -20 all normalize into range. -/
theorem normalize_clamps_scores_witness :
    scoreInRange (pathLookup c2output ["overallScore"]) = true ∧
    scoreInRange (pathLookup c2output ["atsAnalysis", "score"]) = true ∧
    scoreInRange (pathLookup c2output ["interviewProbability", "percentage"]) = true :=
  ⟨normalize_clamps_scores c2input c2output (by rfl) _ (by simp),
   normalize_clamps_scores c2input c2output (by rfl) _ (by simp),
   normalize_clamps_scores c2input c2output (by rfl) _ (by simp)⟩

/-- C9: a parsed score of 0 — although inside the documented 0-100 range —
is replaced by the missing-field default (50 for overallScore and
atsAnalysis.score, 30 for interviewProbability.percentage), because
`parseInt(v) || default` treats 0 exactly like an absent field. -/
theorem normalize_zero_score_becomes_default :
    ∀ (a r : Json), normalizeAnalysis a = .ok r →
      (a.getProp "overallScore" = some (.num 0) →
        pathLookup r ["overallScore"] = some (.num 50)) ∧
      (a.getProp2 "atsAnalysis" "score" = some (.num 0) →
        pathLookup r ["atsAnalysis", "score"] = some (.num 50)) ∧
      (a.getProp2 "interviewProbability" "percentage" = some (.num 0) →
        pathLookup r ["interviewProbability", "percentage"] = some (.num 30)) := by
  intro a r h
  obtain ⟨rw, _, hr⟩ := normalizeAnalysis_ok h
  subst hr
  refine ⟨fun h0 => ?_, fun h0 => ?_, fun h0 => ?_⟩ <;>
    simp [buildResult, pathLookup, getProp_obj, lookupField, h0, normScore,
      jsParseInt, intOr, clamp0100]

/-- Witness for C9: all three zero scores are replaced by their defaults. -/
theorem normalize_zero_score_becomes_default_witness :
    pathLookup c9output ["overallScore"] = some (.num 50) ∧
    pathLookup c9output ["atsAnalysis", "score"] = some (.num 50) ∧
    pathLookup c9output ["interviewProbability", "percentage"] = some (.num 30) :=
  ⟨(normalize_zero_score_becomes_default c9input c9output (by rfl)).1 (by rfl),
   (normalize_zero_score_becomes_default c9input c9output (by rfl)).2.1 (by rfl),
   (normalize_zero_score_becomes_default c9input c9output (by rfl)).2.2 (by rfl)⟩

/-- `x || d` keeps any array value (arrays are truthy, even empty). -/
theorem jsOr_arr (xs : List Json) (d : Json) : jsOr (some (.arr xs)) d = .arr xs := rfl

/-- `x ?? d` keeps any boolean value (including `false`). -/
theorem jsNullish_bool (b : Bool) (d : Json) : jsNullish (some (.bool b)) d = .bool b := rfl

/-- `x || ''` keeps any string value (the empty string falls back to the
equal empty default). -/
theorem jsOr_str_empty (x : String) : jsOr (some (.str x)) (.str "") = .str x := by
  by_cases hx : x = "" <;> simp [jsOr, Json.truthy, hx]

/-- `x || d` keeps any nonempty string value. -/
theorem jsOr_str_ne (x : String) (hx : x ≠ "") (d : Json) :
    jsOr (some (.str x)) d = .str x := by
  simp [jsOr, Json.truthy, hx]

/-- The score expression keeps a nonzero in-range number unchanged. -/
theorem normScore_num_id (n d : Int) (h0 : n ≠ 0) (h1 : 0 ≤ n) (h2 : n ≤ 100) :
    normScore (some (.num n)) d = n := by
  simp only [normScore, jsParseInt, intOr, clamp0100, if_neg h0]
  rw [max_eq_right h1, min_eq_right h2]

/-- A string equal to one of five nonempty literals is nonempty. -/
theorem ne_empty_of_eq5 {v a b c d e : String}
    (h : v = a ∨ v = b ∨ v = c ∨ v = d ∨ v = e)
    (ha : a ≠ "") (hb : b ≠ "") (hc : c ≠ "") (hd : d ≠ "") (he : e ≠ "") :
    v ≠ "" := by
  rcases h with h | h | h | h | h <;> subst h <;> assumption

/-- A string equal to one of four nonempty literals is nonempty. -/
theorem ne_empty_of_eq4 {v a b c d : String}
    (h : v = a ∨ v = b ∨ v = c ∨ v = d)
    (ha : a ≠ "") (hb : b ≠ "") (hc : c ≠ "") (hd : d ≠ "") :
    v ≠ "" := by
  rcases h with h | h | h | h <;> subst h <;> assumption

/-- C6 (amended): the normalizer is the identity transform on every
schema-exact parsed analysis (arbitrary field values of the declared
shapes, enumeration fields holding documented values, at most 3 resume
rewrites) whose numeric score fields are in range and nonzero — a parsed
score of 0 is destroyed by `parseInt(v) || default`. -/
theorem normalize_identity_on_valid
    (s ats ip : Int)
    (verdict summary fi wyn sug er eyh gap yg htc twc hyc yca ybd twi alt rsn wwio ha
      otf enc conf appr : String)
    (se irf kf ckm db st hrf rewrites bal qw wte lt : List Json)
    (wrm ltp cycg sya : Bool)
    (hs : 0 < s ∧ s ≤ 100) (hats : 0 < ats ∧ ats ≤ 100) (hip : 0 < ip ∧ ip ≤ 100)
    (hverdict : verdict = "STRONG MATCH" ∨ verdict = "MODERATE MATCH" ∨
      verdict = "WEAK MATCH" ∨ verdict = "LONG SHOT" ∨ verdict = "NOT A FIT")
    (hgap : gap = "OVER_QUALIFIED" ∨ gap = "SLIGHTLY_OVER" ∨ gap = "GOOD_MATCH" ∨
      gap = "SLIGHTLY_UNDER" ∨ gap = "SIGNIFICANTLY_UNDER")
    (hconf : conf = "HIGH" ∨ conf = "MEDIUM" ∨ conf = "LOW" ∨ conf = "VERY_LOW")
    (happr : appr = "APPLY_NOW" ∨ appr = "CUSTOMIZE_HEAVILY" ∨ appr = "FIND_REFERRAL" ∨
      appr = "SKIP_THIS_ONE" ∨ appr = "APPLY_BUT_KEEP_LOOKING")
    (hrw : rewrites.length ≤ 3) :
    normalizeAnalysis (mkAnalysis s ats ip verdict summary fi wyn sug er eyh gap yg htc
        twc hyc yca ybd twi alt rsn wwio ha otf enc conf appr se irf kf ckm db st hrf
        rewrites bal qw wte lt wrm ltp cycg sya) =
      .ok (mkAnalysis s ats ip verdict summary fi wyn sug er eyh gap yg htc twc hyc yca
        ybd twi alt rsn wwio ha otf enc conf appr se irf kf ckm db st hrf rewrites bal
        qw wte lt wrm ltp cycg sya) := by
  have hvne : verdict ≠ "" := ne_empty_of_eq5 hverdict (by simp) (by simp) (by simp)
    (by simp) (by simp)
  have hgne : gap ≠ "" := ne_empty_of_eq5 hgap (by simp) (by simp) (by simp) (by simp)
    (by simp)
  have hcne : conf ≠ "" := ne_empty_of_eq4 hconf (by simp) (by simp) (by simp) (by simp)
  have hane : appr ≠ "" := ne_empty_of_eq5 happr (by simp) (by simp) (by simp) (by simp)
    (by simp)
  have htake : rewrites.take 3 = rewrites := List.take_of_length_le hrw
  simp [mkAnalysis, normalizeAnalysis, getProp_obj, lookupField, buildResult,
    Json.getProp2, jsOr_arr, jsSlice3, htake, jsOr_str_empty, jsNullish_bool,
    jsOr_str_ne verdict hvne, jsOr_str_ne gap hgne, jsOr_str_ne conf hcne,
    jsOr_str_ne appr hane,
    normScore_num_id s _ (by omega) (by omega) hs.2,
    normScore_num_id ats _ (by omega) (by omega) hats.2,
    normScore_num_id ip _ (by omega) (by omega) hip.2]

/-- C6 counterexample: `c6input` matches the Match Analysis schema exactly
(every declared field present with the expected shape, all scores inside
the documented 0-100 range — overallScore is 0), yet normalization is not
the identity on it. -/
theorem normalize_not_identity_on_c6input :
    validMatchAnalysis c6input = true ∧ normalizeAnalysis c6input ≠ .ok c6input := by
  constructor
  · decide
  · intro h
    have hrfl : normalizeAnalysis c6input = .ok c6norm := rfl
    rw [hrfl] at h
    injection h with h
    have h2 : pathLookup c6norm ["overallScore"] = pathLookup c6input ["overallScore"] := by
      rw [h]
    have e1 : pathLookup c6norm ["overallScore"] = some (.num 50) := rfl
    have e2 : pathLookup c6input ["overallScore"] = some (.num 0) := rfl
    rw [e1, e2] at h2
    simp at h2

/-- Witness for C6 (amended) at the concrete schema-exact value `c6ok`
with nonzero scores 70, 52 and 15. -/
theorem normalize_identity_on_valid_witness : normalizeAnalysis c6ok = .ok c6ok :=
  normalize_identity_on_valid 70 52 15 "WEAK MATCH" "Borderline fit." "Clean format."
    "Title mismatch." "Add keywords." "5+ years" "4 years" "SLIGHTLY_UNDER"
    "About one year short" "Emphasize backend work." "5-7 years full-stack"
    "Competitive on frontend" "React depth" "Cloud gap" "1-2 hours" "Find a referral"
    "Gaps cause rejection" "Add missing skills" "Borderline." "Add keywords."
    "You are close." "LOW" "CUSTOMIZE_HEAVILY" [.str "Clear history"] [] [.str "React"]
    [.str "AWS"] [] [] [] [] [.str "Add skills"] [] [] [] false false true true
    (by norm_num) (by norm_num) (by norm_num) (by simp) (by simp) (by simp) (by simp)
    (by simp)

/-- `lastCloseSplit` fails exactly when the closing character is absent. -/
theorem lastCloseSplit_eq_none (cl : Char) (cs : List Char) :
    lastCloseSplit cl cs = none ↔ cl ∉ cs := by
  induction cs with
  | nil => simp [lastCloseSplit]
  | cons c rest ih =>
    rw [lastCloseSplit]
    cases h : lastCloseSplit cl rest with
    | some p =>
      have : cl ∈ rest := by
        by_contra hm
        rw [ih.mpr hm] at h
        exact Option.noConfusion h
      simp [this]
    | none =>
      by_cases hc : c = cl
      · simp [hc]
      · have : cl ∉ rest := ih.mp h
        simp [hc, this]
        exact fun he => hc he.symm

/-- With no later occurrence of `cl`, the greedy star stops at the shown
(last) `cl`. -/
theorem lastCloseSplit_append (cl : Char) (mid suf : List Char) (hsuf : cl ∉ suf) :
    lastCloseSplit cl (mid ++ cl :: suf) = some (mid ++ [cl]) := by
  induction mid with
  | nil =>
    rw [List.nil_append, lastCloseSplit, (lastCloseSplit_eq_none cl suf).mpr hsuf]
    simp
  | cons c mid ih =>
    rw [List.cons_append, lastCloseSplit, ih]
    rfl

/-- Any successful `lastCloseSplit` found an occurrence of `cl`. -/
theorem lastCloseSplit_some (cl : Char) (cs p : List Char)
    (h : lastCloseSplit cl cs = some p) : ∃ q suf, cs = q ++ cl :: suf := by
  induction cs generalizing p with
  | nil => exact Option.noConfusion h
  | cons c rest ih =>
    rw [lastCloseSplit] at h
    cases hl : lastCloseSplit cl rest with
    | some p2 =>
      obtain ⟨q, suf, hq⟩ := ih p2 hl
      exact ⟨c :: q, suf, by rw [hq, List.cons_append]⟩
    | none =>
      rw [hl] at h
      by_cases hc : c = cl
      · exact ⟨[], rest, by rw [hc, List.nil_append]⟩
      · rw [if_neg hc] at h
        exact Option.noConfusion h

/-- Positive case of the greedy search: with no earlier `op` and no later
`cl`, the match runs from the (first) `op` to the (last) `cl`. -/
theorem regexSearch_pos (op cl : Char) (pre mid suf : List Char)
    (hpre : op ∉ pre) (hsuf : cl ∉ suf) :
    regexSearch op cl (pre ++ op :: (mid ++ cl :: suf)) =
      some (op :: (mid ++ [cl])) := by
  induction pre with
  | nil =>
    rw [List.nil_append, regexSearch, if_pos rfl, lastCloseSplit_append cl mid suf hsuf]
  | cons c pre ih =>
    have hc : c ≠ op := fun h => hpre (h ▸ List.mem_cons_self c pre)
    rw [List.cons_append, regexSearch, if_neg hc]
    exact ih (fun h => hpre (List.mem_cons_of_mem c h))

/-- Any successful greedy search exhibits an `op` before a `cl`. -/
theorem regexSearch_some (op cl : Char) (cs m : List Char)
    (h : regexSearch op cl cs = some m) :
    ∃ pre mid suf, cs = pre ++ op :: (mid ++ cl :: suf) := by
  induction cs with
  | nil => exact Option.noConfusion h
  | cons c rest ih =>
    rw [regexSearch] at h
    by_cases hc : c = op
    · rw [if_pos hc] at h
      cases hl : lastCloseSplit cl rest with
      | some p =>
        obtain ⟨q, suf, hq⟩ := lastCloseSplit_some cl rest p hl
        exact ⟨[], q, suf, by rw [hq, hc, List.nil_append]⟩
      | none =>
        rw [hl] at h
        obtain ⟨pre, mid, suf, hrest⟩ := ih h
        exact ⟨c :: pre, mid, suf, by rw [hrest, List.cons_append]⟩
    · rw [if_neg hc] at h
      obtain ⟨pre, mid, suf, hrest⟩ := ih h
      exact ⟨c :: pre, mid, suf, by rw [hrest, List.cons_append]⟩

/-- Negative case of the greedy search: with no opening/closing pair in
order, there is no match. -/
theorem regexSearch_none (op cl : Char) (cs : List Char)
    (h : ¬ ∃ pre mid suf, cs = pre ++ op :: (mid ++ cl :: suf)) :
    regexSearch op cl cs = none := by
  cases hr : regexSearch op cl cs with
  | none => rfl
  | some m => exact absurd (regexSearch_some op cl cs m hr) h

/-- A text without the opening character admits no opening/closing pair. -/
theorem not_decomp_of_not_mem (op cl : Char) (cs : List Char) (hop : op ∉ cs) :
    ¬ ∃ pre mid suf, cs = pre ++ op :: (mid ++ cl :: suf) := by
  rintro ⟨pre, mid, suf, rfl⟩
  exact hop (by simp)

/-- C3: JSON extraction takes the substring from the first opening
character of the requested shape to the last closing character in the
text (greedy outer match) and passes exactly that substring on to the
JSON parser; when no opening/closing pair exists, it fails with
NoJsonFound instead of returning a value. -/
theorem extractJson_greedy_first_to_last :
    (∀ (sh : JsonShape) (pre mid suf : List Char),
        openChar sh ∉ pre → closeChar sh ∉ suf →
        extractJson sh ⟨pre ++ openChar sh :: (mid ++ closeChar sh :: suf)⟩ =
          .ok ⟨openChar sh :: (mid ++ [closeChar sh])⟩)
    ∧ (∀ (sh : JsonShape) (s : String),
        (¬ ∃ pre mid suf,
            s.data = pre ++ openChar sh :: (mid ++ closeChar sh :: suf)) →
        extractJson sh s = .error .noJsonFound) := by
  constructor
  · intro sh pre mid suf hpre hsuf
    rw [extractJson, jsMatchGreedy]
    rw [show (String.mk (pre ++ openChar sh :: (mid ++ closeChar sh :: suf))).data =
      pre ++ openChar sh :: (mid ++ closeChar sh :: suf) from rfl]
    rw [regexSearch_pos (openChar sh) (closeChar sh) pre mid suf hpre hsuf]
    rfl
  · intro sh s h
    rw [extractJson, jsMatchGreedy, regexSearch_none (openChar sh) (closeChar sh) s.data h]
    rfl

/-- Witness for C3: a prose-wrapped object is extracted between its
braces, and a brace-free text fails with NoJsonFound. -/
theorem extractJson_greedy_first_to_last_witness :
    extractJson .object "Result: \x7bok\x7d thanks" = .ok "\x7bok\x7d" ∧
    extractJson .object "no json in this reply" = .error .noJsonFound := by
  constructor
  · exact extractJson_greedy_first_to_last.1 .object "Result: ".data "ok".data
      " thanks".data (by decide) (by decide)
  · exact extractJson_greedy_first_to_last.2 .object "no json in this reply"
      (not_decomp_of_not_mem _ _ _ (by decide))

/-- Association lookup through the value-patching map of a spread. -/
theorem lookupField_patch (b a : List (String × Json)) (k : String) :
    lookupField (a.map (fun kv =>
      (kv.1, match lookupField b kv.1 with
             | some w => w
             | none => kv.2))) k =
      match lookupField a k with
      | some v => some (match lookupField b k with
                        | some w => w
                        | none => v)
      | none => none := by
  induction a with
  | nil => rfl
  | cons kv rest ih =>
    obtain ⟨k0, v0⟩ := kv
    by_cases hk : k0 = k
    · subst hk
      simp [lookupField]
    · simp [lookupField, hk, ih]

/-- Association lookup distributes over append. -/
theorem lookupField_append (x y : List (String × Json)) (k : String) :
    lookupField (x ++ y) k =
      match lookupField x k with
      | some v => some v
      | none => lookupField y k := by
  induction x with
  | nil => rfl
  | cons kv rest ih =>
    obtain ⟨k0, v0⟩ := kv
    by_cases hk : k0 = k
    · subst hk
      simp [lookupField]
    · simp [lookupField, hk, ih]

/-- Filtering by a predicate that keeps every entry with key `k` does not
change the lookup of `k`. -/
theorem lookupField_filter (p : String × Json → Bool) (b : List (String × Json))
    (k : String) (hp : ∀ v, p (k, v) = true) :
    lookupField (b.filter p) k = lookupField b k := by
  induction b with
  | nil => rfl
  | cons kv rest ih =>
    obtain ⟨k0, v0⟩ := kv
    by_cases hk : k0 = k
    · subst hk
      rw [List.filter_cons, hp v0]
      simp [lookupField]
    · rw [List.filter_cons]
      cases hp0 : p (k0, v0)
      · simp [lookupField, hk, ih]
      · simp [lookupField, hk, ih]

/-- Spreading over the empty object keeps the update as is. -/
theorem spreadMerge_nil (b : List (String × Json)) : spreadMerge [] b = b := by
  simp [spreadMerge, lookupField]

/-- Lookup in a spread: the update wins on its own keys, the base is
preserved elsewhere. -/
theorem lookupField_spreadMerge (a b : List (String × Json)) (k : String) :
    lookupField (spreadMerge a b) k =
      match lookupField b k with
      | some v => some v
      | none => lookupField a k := by
  cases ha : lookupField a k with
  | some v =>
    rw [spreadMerge, lookupField_append, lookupField_patch, ha]
    cases hb : lookupField b k <;> simp
  | none =>
    rw [spreadMerge, lookupField_append, lookupField_patch, ha]
    have hp : ∀ v : Json,
        (fun kv : String × Json => (lookupField a kv.1).isNone) (k, v) = true := by
      intro v
      simp [ha]
    rw [lookupField_filter _ b k hp]
    cases hb : lookupField b k <;> simp [ha]

/-- C7: update(id, partial) shallow-merges: every top-level field named
in partial replaces the stored one, every other stored field is
preserved, and with no stored session the fresh session holds exactly the
fields of partial. -/
theorem sessionsUpdate_shallow_merge :
    ∀ (store : String → Option (List (String × Json))) (id : String)
      (s data : List (String × Json)) (k : String),
      (store id = some s →
        sessionsUpdate store id data id = some (spreadMerge s data) ∧
        lookupField (spreadMerge s data) k =
          (match lookupField data k with
           | some v => some v
           | none => lookupField s k)) ∧
      (store id = none → sessionsUpdate store id data id = some data) := by
  intro store id s data k
  constructor
  · intro h
    exact ⟨by simp [sessionsUpdate, h], lookupField_spreadMerge s data k⟩
  · intro h
    simp [sessionsUpdate, h, spreadMerge_nil]

/-- Witness for C7: from a session holding only profile P, updating with
jobs J yields the session holding both fields. -/
theorem sessionsUpdate_shallow_merge_witness :
    sessionsUpdate profileOnlyStore "s1" [("jobs", Json.str "J")] "s1" =
      some [("profile", Json.str "P"), ("jobs", Json.str "J")] :=
  (((sessionsUpdate_shallow_merge profileOnlyStore "s1" [("profile", Json.str "P")]
      [("jobs", Json.str "J")] "jobs").1 (by rfl)).1).trans (by rfl)

/-- C10: querying saved jobs for an unknown session id is a success
response carrying the empty savedJobs list — not a SessionNotFound
failure, unlike the session-referencing analyze-match route, which
answers 404 for the same missing session. -/
theorem savedJobs_no_session_success :
    ∀ (store : String → Option Json) (sid : String),
      store sid = none →
      savedJobsRoute store sid =
        .success 200 (Json.obj [("savedJobs", Json.arr [])]) ∧
      ∀ (client : Option Unit) (complete : String → String)
        (parse : String → Option Json) (tok nsid jd : String), jd ≠ "" →
        apiAnalyzeMatchRoute store client complete parse tok nsid jd (some sid) none =
          .failure 404 "Session not found. Please upload resume again." := by
  intro store sid h
  constructor
  · simp [savedJobsRoute, h, jsOr]
  · intro client complete parse tok nsid jd hjd
    simp [apiAnalyzeMatchRoute, hjd, h]

/-- Witness for C10 at a store without the queried session. -/
theorem savedJobs_no_session_success_witness :
    savedJobsRoute oneSessionStore "nope" =
      .success 200 (Json.obj [("savedJobs", Json.arr [])]) ∧
    apiAnalyzeMatchRoute oneSessionStore (some ()) (constComplete "x") noParse
        "tok" "new" jdLong (some "nope") none =
      .failure 404 "Session not found. Please upload resume again." :=
  ⟨(savedJobs_no_session_success oneSessionStore "nope" (by rfl)).1,
   (savedJobs_no_session_success oneSessionStore "nope" (by rfl)).2 (some ())
     (constComplete "x") noParse "tok" "new" jdLong (by decide)⟩

/-- C5 counterexample: with no credential configured, the legacy
analyze-match endpoint answers a fabricated success — the canned mock
analysis — for a valid request, not an error. -/
theorem legacy_no_key_mock_success :
    legacyAnalyzeMatch false (constComplete "anything") emptyObjParse
      (some (.ok resume60)) jd50 = .success 200 mockAnalysisData := by rfl

/-- C5 (amended): the service-layer gateway check fails with the
ProviderUnavailable error before any provider call when no client is
configured (the result does not depend on the completion oracle); the
legacy endpoint instead returns the mock success response for a missing
key, likewise without consulting the provider. -/
theorem provider_unavailable_before_call :
    (∀ (complete : String → String) (parse : String → Option Json)
        (resumeText jobDescription : String),
        analyzeMatchService none complete parse resumeText jobDescription =
          .error "Groq client not initialized. Please configure GROQ_API_KEY.")
    ∧ (∀ (complete : String → String) (parse : String → Option Json)
        (resumeText jobDescription : String), 50 ≤ jobDescription.length →
        50 ≤ (jsTrim resumeText).length →
        legacyAnalyzeMatch false complete parse (some (.ok resumeText))
          jobDescription = .success 200 mockAnalysisData) := by
  constructor
  · intro complete parse rt jd
    rfl
  · intro complete parse rt jd hjd hrt
    simp [legacyAnalyzeMatch, if_neg (by omega : ¬ jd.length < 50),
      if_neg (by omega : ¬ (jsTrim rt).length < 50)]

/-- Witness for C5 (amended) at concrete oracles and inputs. -/
theorem provider_unavailable_before_call_witness :
    analyzeMatchService none (constComplete "x") noParse resume60 jdLong =
      .error "Groq client not initialized. Please configure GROQ_API_KEY." ∧
    legacyAnalyzeMatch false (constComplete "x") noParse (some (.ok resume60))
      jdLong = .success 200 mockAnalysisData :=
  ⟨provider_unavailable_before_call.1 (constComplete "x") noParse resume60 jdLong,
   provider_unavailable_before_call.2 (constComplete "x") noParse resume60 jdLong
     (by decide) (by decide)⟩

/-- Every analysis run of the routed endpoint is a 200 success or a 500
failure. -/
theorem apiAnalyzeMatchRun_status (client : Option Unit) (complete : String → String)
    (parse : String → Option Json) (tok jd rt sid : String) :
    (∃ d, apiAnalyzeMatchRun client complete parse tok jd rt sid = .success 200 d) ∨
    (∃ e, apiAnalyzeMatchRun client complete parse tok jd rt sid = .failure 500 e) := by
  cases h : analyzeMatchService client complete parse rt jd with
  | error e => exact Or.inr ⟨e, by rw [apiAnalyzeMatchRun, h]⟩
  | ok analysis => exact Or.inl ⟨_, by rw [apiAnalyzeMatchRun, h]⟩

/-- C8 counterexample: the routed analyze-match endpoint accepts a
49-character job description — with a valid session and a well-behaved
provider the request succeeds instead of being rejected before the
provider call. -/
theorem api_route_accepts_49_char_jd :
    jd49.length = 49 ∧
    apiAnalyzeMatchRoute oneSessionStore (some ()) (constComplete "\x7bok\x7d")
        emptyObjParse "tok" "new" jd49 (some "sess1") none =
      .success 200 (Json.obj [("sessionId", .str "sess1"), ("analysis", Json.obj []),
        ("verificationToken", .str "tok")]) :=
  ⟨rfl, rfl⟩

/-- C8 (amended): the legacy analyze-match endpoint rejects a job
description shorter than 50 characters before any provider call and
accepts one of exactly 50 characters past the gate; the routed endpoint
only rejects a missing/empty job description, so any nonempty one — 49
characters included — passes its gate. -/
theorem jd_length_gate :
    (∀ (hasKey : Bool) (complete : String → String) (parse : String → Option Json)
        (fileRes : Except String String) (jd : String), jd.length < 50 →
        legacyAnalyzeMatch hasKey complete parse (some fileRes) jd =
          .failure 400 "Job description is required (minimum 50 characters)")
    ∧ (∀ (hasKey : Bool) (complete : String → String) (parse : String → Option Json)
        (fileRes : Except String String) (jd : String), jd.length = 50 →
        legacyAnalyzeMatch hasKey complete parse (some fileRes) jd ≠
          .failure 400 "Job description is required (minimum 50 characters)")
    ∧ (∀ (store : String → Option Json) (client : Option Unit)
        (complete : String → String) (parse : String → Option Json)
        (tok nsid jd : String) (sid : Option String) (file : Option String), jd ≠ "" →
        apiAnalyzeMatchRoute store client complete parse tok nsid jd sid file ≠
          .failure 400 "Job description is required") := by
  refine ⟨?_, ?_, ?_⟩
  · intro hasKey complete parse fileRes jd h
    simp [legacyAnalyzeMatch, h]
  · intro hasKey complete parse fileRes jd h heq
    simp only [legacyAnalyzeMatch] at heq
    rw [if_neg (by omega : ¬ jd.length < 50)] at heq
    rcases fileRes with e | rt
    · simp at heq
    · dsimp only at heq
      by_cases hr : (jsTrim rt).length < 50
      · rw [if_pos hr] at heq
        simp at heq
      · rw [if_neg hr] at heq
        by_cases hk : hasKey = true
        · simp only [hk, Bool.not_true, Bool.false_eq_true, if_false] at heq
          rcases hm : jsMatchGreedy (openChar .object) (closeChar .object)
              (complete (legacyAnalyzeMatchPrompt rt jd)) with _ | m
          · rw [hm] at heq
            simp at heq
          · rw [hm] at heq
            dsimp only at heq
            rcases hp : parse m with _ | analysis
            · rw [hp] at heq
              simp at heq
            · rw [hp] at heq
              dsimp only at heq
              rcases hn : normalizeAnalysis analysis with e2 | r2
              · rw [hn] at heq
                simp at heq
              · rw [hn] at heq
                simp at heq
        · have hk2 : hasKey = false := by
            cases hasKey
            · rfl
            · exact absurd rfl hk
          simp [hk2] at heq
  · intro store client complete parse tok nsid jd sid file hjd heq
    simp only [apiAnalyzeMatchRoute] at heq
    rw [if_neg hjd] at heq
    rcases file with _ | rt
    · rcases sid with _ | s
      · simp at heq
      · dsimp only at heq
        rcases hs : store s with _ | session
        · rw [hs] at heq
          simp at heq
        · rw [hs] at heq
          dsimp only at heq
          rcases apiAnalyzeMatchRun_status client complete parse tok jd
              (match session.getProp "resumeText" with
               | some (.str t) => t
               | _ => "") s with ⟨d, hd⟩ | ⟨e, he⟩
          · rw [hd] at heq
            simp at heq
          · rw [he] at heq
            simp at heq
    · dsimp only at heq
      rcases apiAnalyzeMatchRun_status client complete parse tok jd rt nsid with
        ⟨d, hd⟩ | ⟨e, he⟩
      · rw [hd] at heq
        simp at heq
      · rw [he] at heq
        simp at heq

/-- Witness for C8 (amended): a 49-character job description is rejected
by the legacy gate, a 50-character one is not, and the routed endpoint
does not reject the 49-character one. -/
theorem jd_length_gate_witness :
    legacyAnalyzeMatch true (constComplete "x") noParse (some (.ok resume60)) jd49 =
      .failure 400 "Job description is required (minimum 50 characters)" ∧
    legacyAnalyzeMatch true (constComplete "x") noParse (some (.ok resume60)) jd50 ≠
      .failure 400 "Job description is required (minimum 50 characters)" ∧
    apiAnalyzeMatchRoute oneSessionStore (some ()) (constComplete "x") noParse "tok"
        "new" jd49 (some "sess1") none ≠
      .failure 400 "Job description is required" :=
  ⟨jd_length_gate.1 true (constComplete "x") noParse (.ok resume60) jd49 (by decide),
   jd_length_gate.2.1 true (constComplete "x") noParse (.ok resume60) jd50 (by decide),
   jd_length_gate.2.2 oneSessionStore (some ()) (constComplete "x") noParse "tok" "new"
     jd49 (some "sess1") none (by decide)⟩

/-- C4 counterexample: profile extraction maps an extraction failure — a
completion holding no JSON object — to a successful empty profile rather
than failing the request. -/
theorem extract_profile_swallows_failure :
    extractProfileFromResume (some ()) (constComplete "no json in this reply")
      noParse resume60 = Json.obj [] := rfl

/-- C4 (amended): in the analyze-match pipeline an extraction failure (no
JSON in the completion) or parse failure (malformed JSON) fails the whole
request with a 500 error response; profile extraction, however, maps both
failures to a successful empty profile, and company-fit analysis maps an
extraction failure to a fabricated fallback result (score 50, status
"Analysis Failed"). -/
theorem parse_failure_propagation :
    (∀ (complete : String → String) (parse : String → Option Json)
        (rt jd : String), 50 ≤ jd.length → 50 ≤ (jsTrim rt).length →
        jsMatchGreedy (openChar .object) (closeChar .object)
            (complete (legacyAnalyzeMatchPrompt rt jd)) = none →
        legacyAnalyzeMatch true complete parse (some (.ok rt)) jd =
          .failure 500 "Failed to analyze resume. Please try again.")
    ∧ (∀ (complete : String → String) (parse : String → Option Json)
        (rt jd m : String), 50 ≤ jd.length → 50 ≤ (jsTrim rt).length →
        jsMatchGreedy (openChar .object) (closeChar .object)
            (complete (legacyAnalyzeMatchPrompt rt jd)) = some m →
        parse m = none →
        legacyAnalyzeMatch true complete parse (some (.ok rt)) jd =
          .failure 500 "Failed to analyze resume. Please try again.")
    ∧ (∀ (complete : String → String) (parse : String → Option Json) (rt : String),
        jsMatchGreedy (openChar .object) (closeChar .object)
            (complete (profilePrompt rt)) = none →
        extractProfileFromResume (some ()) complete parse rt = Json.obj [])
    ∧ (∀ (complete : String → String) (parse : String → Option Json)
        (profile : Json) (companyName : String),
        jsMatchGreedy (openChar .object) (closeChar .object)
            (complete (companyFitPrompt profile companyName)) = none →
        analyzeCompanyFit (some ()) complete parse profile companyName =
          Json.obj [("score", .num 50), ("status", .str "Analysis Failed"),
            ("analysis", .str "Could not retrieve AI analysis at this time.")]) := by
  refine ⟨?_, ?_, ?_, ?_⟩
  · intro complete parse rt jd hjd hrt hm
    simp [legacyAnalyzeMatch, if_neg (by omega : ¬ jd.length < 50),
      if_neg (by omega : ¬ (jsTrim rt).length < 50), hm]
  · intro complete parse rt jd m hjd hrt hm hp
    simp [legacyAnalyzeMatch, if_neg (by omega : ¬ jd.length < 50),
      if_neg (by omega : ¬ (jsTrim rt).length < 50), hm, hp]
  · intro complete parse rt hm
    simp [extractProfileFromResume, hm]
  · intro complete parse profile companyName hm
    simp [analyzeCompanyFit, hm]

/-- Witness for C4 (amended) at concrete completions: one with no JSON,
one with a malformed object. -/
theorem parse_failure_propagation_witness :
    legacyAnalyzeMatch true (constComplete "plain text answer") noParse
        (some (.ok resume60)) jdLong =
      .failure 500 "Failed to analyze resume. Please try again." ∧
    legacyAnalyzeMatch true (constComplete "\x7bbad\x7d") noParse
        (some (.ok resume60)) jdLong =
      .failure 500 "Failed to analyze resume. Please try again." ∧
    extractProfileFromResume (some ()) (constComplete "plain text answer") noParse
        resume60 = Json.obj [] ∧
    analyzeCompanyFit (some ()) (constComplete "plain text answer") noParse
        (Json.obj []) "Acme" =
      Json.obj [("score", .num 50), ("status", .str "Analysis Failed"),
        ("analysis", .str "Could not retrieve AI analysis at this time.")] :=
  ⟨parse_failure_propagation.1 (constComplete "plain text answer") noParse resume60
     jdLong (by decide) (by decide) rfl,
   parse_failure_propagation.2.1 (constComplete "\x7bbad\x7d") noParse resume60
     jdLong "\x7bbad\x7d" (by decide) (by decide) rfl rfl,
   parse_failure_propagation.2.2.1 (constComplete "plain text answer") noParse
     resume60 rfl,
   parse_failure_propagation.2.2.2 (constComplete "plain text answer") noParse
     (Json.obj []) "Acme" rfl⟩

end GetInterviews
